import Mathlib

/-!
Verification development for `app_espeak.c` (Asterisk eSpeak application).

The file shallowly embeds the `app_exec` function of `src/app_espeak.c`:

* the audio post-processing block (lines 231-276): reading the raw PCM file
  produced by the synthesizer, sizing the destination buffer, resampling (or
  byte-copying on a rate match) and writing the WAV result — modelled by
  `AppEspeak.convert`;
* the surrounding application control flow (argument check, configuration
  defaults, target-rate normalization, cache short-circuit, temp-file
  creation, synthesis, playback) — modelled by `AppEspeak.appExec`.

External collaborators (eSpeak, libsndfile, libsamplerate, the Asterisk
channel and configuration APIs, the filesystem) are represented by explicit
oracles in `ConvEnv`/`ExecEnv`, so that every branch of the C code appears as
a branch of the Lean functions.  Sample values are modelled as `ℚ` (the code
handles samples as C `float`s after libsndfile's PCM16 → float conversion;
the claims settled here never depend on float rounding, only on which values
are copied where).  All frame counts and rates that reach arithmetic are
nonnegative in every reachable execution, so they are modelled as `Nat`;
`Nat` division coincides with C's truncated `sf_count_t` division there.
-/

namespace AppEspeak

/-- `MAXLEN` from line 49 of the source. -/
def MAXLEN : Nat := 2048

/-- libsndfile format code `SF_FORMAT_RAW | SF_FORMAT_PCM_16` (line 51). -/
def RAW_PCM_S16LE : Nat := 262146

/-- libsndfile format code `SF_FORMAT_WAV | SF_FORMAT_PCM_16` (line 52). -/
def WAV_PCM_S16LE : Nat := 65538

/-- The fields of libsndfile's `SF_INFO` that the program touches
(`frames`, `samplerate`, `channels`, `format`).  `seekable` and `sections`
are never read or written by the program and are omitted. -/
structure SF_INFO where
  frames : Nat
  samplerate : Nat
  channels : Nat
  format : Nat
deriving DecidableEq, Repr

/-- Outcome of the conversion block (lines 231-270).  The two error
constructors are the two `return -1` exits at lines 241 and 252
("Failed to read raw audio data" / "Failed to create wav audio file");
`ok` carries the final `dst_info` and the float frames written to the WAV
file by `sf_writef_float` (line 270). -/
inductive ConvResult where
  | errSrcOpen : ConvResult
  | errDstOpen : ConvResult
  | ok : SF_INFO → List ℚ → ConvResult
deriving DecidableEq, Repr

/-- Oracles for the external calls made by the conversion block.

`srcMallocOk` and `dstMallocOk` record whether the two `malloc` calls
(lines 254 and 257) succeed.  The C code never tests their results, so the
embedding, being faithful to it, never reads these two fields: the
computation is identical whether allocation succeeded or failed.

`readCount` is the number of frames actually delivered by
`sf_readf_float` (line 255); its return value is not checked by the code,
and a short read leaves the tail of the `src` buffer uninitialized.
`srcJunk`/`dstJunk` give the contents of uninitialized malloc memory. -/
structure ConvEnv where
  srcOpenOk : Bool
  dstOpenOk : Bool
  srcMallocOk : Bool
  dstMallocOk : Bool
  readCount : Nat
  srcJunk : Nat → ℚ
  dstJunk : Nat → ℚ

/-- Contents of `n` uninitialized float slots starting at offset `off` of a
freshly malloc'ed buffer whose junk contents are given by `f`. -/
def uninitFloats (f : Nat → ℚ) (off n : Nat) : List ℚ :=
  (List.range n).map (fun i => f (off + i))

/-- Shallow embedding of the conversion block, lines 231-270 of
`app_espeak.c`.

* `resample` stands for libsamplerate's `src_simple` with converter
  `SRC_SINC_FASTEST` (line 266): arguments are the input frames, the ratio
  `target_sample_rate / sample_rate` and `output_frames`; it is an arbitrary
  fixed function of those inputs.
* `rawData` is the (float-normalized) content of the raw PCM file written by
  the synthesizer; `sf_open` in `SFM_READ` mode on a RAW file sets
  `src_info.frames` to its length.
* `sampleRate` is eSpeak's native rate, `targetRate` the (already
  normalized) target rate.

Line-by-line correspondence: the `srcOpenOk` test is lines 236-242, the
`dstOpenOk` test lines 246-253, `src` is the buffer of line 254 after the
unchecked read of line 255, `dstFrames` is line 256 (`sf_count_t`, i.e.
truncated, division), the rate test and the two ways of filling `dst` are
lines 259-269, and the returned `ok` carries `dst_info` (lines 243-245 and
256) together with the `dst_info.frames` frames written at line 270
(`src_simple` may generate fewer than `output_frames` frames, in which case
the unwritten tail of the `dst` buffer is emitted as is). -/
def convert (resample : List ℚ → ℚ → Nat → List ℚ) (rawData : List ℚ)
    (sampleRate targetRate : Nat) (env : ConvEnv) : ConvResult :=
  if env.srcOpenOk = false then ConvResult.errSrcOpen
  else if env.dstOpenOk = false then ConvResult.errDstOpen
  else
    let frames := rawData.length
    let nRead := min env.readCount frames
    let src := rawData.take nRead ++ uninitFloats env.srcJunk nRead (frames - nRead)
    let dstFrames := frames * targetRate / sampleRate
    let dst :=
      if sampleRate ≠ targetRate then
        let generated := resample src ((targetRate : ℚ) / (sampleRate : ℚ)) dstFrames
        generated.take dstFrames ++
          uninitFloats env.dstJunk (min generated.length dstFrames)
            (dstFrames - generated.length)
      else
        src.take dstFrames
    ConvResult.ok
      { frames := dstFrames, samplerate := targetRate, channels := 1,
        format := WAV_PCM_S16LE }
      dst

/-- The configuration values `app_exec` reads from `espeak.conf`
(lines 108-141).  `loaded` is false when `ast_config_load` returned NULL
(line 110), in which case all defaults are kept.  Each key is `none` when
`ast_variable_retrieve` returns NULL.  Integer-valued keys hold the `atoi`
of the file's text. -/
structure EspeakConfig where
  loaded : Bool
  usecache : Bool
  cachedir : Option String
  samplerate : Option Int
  speed : Option Int
  wordgap : Option Int
  volume : Option Int
  pitch : Option Int
  capind : Option Int
  voice : Option String

/-- The three dialplan arguments of `eSpeak(text[,intkeys,language])`
after `AST_STANDARD_APP_ARGS` (lines 97-101, 144).  Absent arguments are
NULL in C, `none` here. -/
structure AppArgs where
  text : String
  interrupt : Option String
  language : Option String
deriving DecidableEq, Repr

/-- Splits the argument string at commas, accumulator-style.  Models
`ast_app_separate_args`' separator handling for the plain (unquoted,
unparenthesized) argument strings this development evaluates. -/
def splitArgsAux : List Char → List Char → List (List Char)
  | [], acc => [acc.reverse]
  | c :: rest, acc =>
    if c = ',' then acc.reverse :: splitArgsAux rest []
    else splitArgsAux rest (c :: acc)

/-- `AST_STANDARD_APP_ARGS(args, mydata)` at line 144: the first three
comma-separated fields of the argument string. -/
def parseArgs (data : String) : AppArgs :=
  let parts := splitArgsAux data.toList []
  { text := String.mk ((parts.get? 0).getD [])
    interrupt := (parts.get? 1).map String.mk
    language := (parts.get? 2).map String.mk }

/-- The value of `target_sample_rate` after the configuration block:
initialized to 8000 (line 88) and overwritten by `atoi` of the
`samplerate` key when the configuration loaded and has one (lines 121-122). -/
def targetRate0 (cfg : EspeakConfig) : Int :=
  if cfg.loaded then cfg.samplerate.getD 8000 else 8000

/-- Lines 152-157: any rate other than 8000 and 16000 falls back to 8000. -/
def normalizeRate (t : Int) : Int :=
  if t ≠ 8000 ∧ t ≠ 16000 then 8000 else t

/-- The target rate in effect after line 157, as a `Nat` (it is always
8000 or 16000). -/
def effRate (cfg : EspeakConfig) : Nat :=
  (normalizeRate (targetRate0 cfg)).toNat

/-- `usecache` after lines 80 and 115-116. -/
def cfgUsecache (cfg : EspeakConfig) : Bool :=
  cfg.loaded && cfg.usecache

/-- `cachedir` after lines 78 and 118-119. -/
def cfgCachedir (cfg : EspeakConfig) : String :=
  if cfg.loaded then cfg.cachedir.getD ("/tmp") else "/tmp"

/-- The voice handed to `espeak_SetVoiceByName` (line 211): "default"
(line 94), overridden by the configuration's `voice` key (lines 139-140),
overridden by a nonempty third dialplan argument (lines 149-150).  The
voice only parametrizes the external synthesizer. -/
def chosenVoice (cfg : EspeakConfig) (args : AppArgs) : String :=
  let base := if cfg.loaded then cfg.voice.getD ("default") else "default"
  match args.language with
  | some l => if l ≠ "" then l else base
  | none => base

/-- The five integer parameters handed to `espeak_SetParameter`
(lines 89-93, 124-137, 212-216): speed, wordgap, volume, pitch, capind.
They only parametrize the external synthesizer. -/
def espeakParams (cfg : EspeakConfig) : Int × Int × Int × Int × Int :=
  if cfg.loaded then
    (cfg.speed.getD 150, cfg.wordgap.getD 1, cfg.volume.getD 100,
      cfg.pitch.getD 50, cfg.capind.getD 0)
  else (150, 1, 100, 50, 0)

/-- The length guard of line 166: the cache file name
`cachedir/MD5` (plus file-extension slack) must fit in the `MAXLEN`
buffer.  `ast_md5_hash` always writes 32 characters; the abstract `md5`
function stands for it. -/
def cacheNameOk (md5 : String → String) (args : AppArgs) (cachedir : String) : Prop :=
  cachedir.length + (md5 args.text).length + 5 ≤ MAXLEN

instance (md5 : String → String) (args : AppArgs) (cachedir : String) :
    Decidable (cacheNameOk md5 args cachedir) := by
  unfold cacheNameOk; infer_instance

/-- The output file extension chosen at lines 192-200: `.wav16` when the
(already normalized) target rate is 16000, `.wav` when it is 8000. -/
def wavExtFor (eff : Nat) : String :=
  if eff = 16000 then ".wav16" else ".wav"

/-- Oracles for the external calls of the application-level control flow.

`randVal` is the value returned by `ast_random()` at line 191; it is
embedded into the temporary file name `/tmp/eSpeak_<randVal>` and into
nothing else, so no observable field of the execution trace depends on it.
`espeakRate` models `espeak_Initialize` (line 203): `none` is the `-1`
failure return, `some r` the engine's native rate.  `synthData` is the
(float-normalized) raw PCM stream the synthesizer writes through
`synth_callback` into the buffer file.  `cacheExists` models
`ast_fileexists(cachefile) > 0` (line 169); `cacheStreamRes`/`cacheWaitRes`
the results of `ast_streamfile`/`ast_waitstream` on the cache file
(lines 176, 181), and `streamRes`/`waitRes` the same for the produced file
(lines 286, 290). -/
structure ExecEnv where
  randVal : Nat
  espeakRate : Option Nat
  fopenOk : Bool
  synthData : List ℚ
  conv : ConvEnv
  cacheExists : Bool
  cacheStreamRes : Int
  cacheWaitRes : Int
  streamRes : Int
  waitRes : Int

/-- Observable trace of one `app_exec` run.

`configLoaded` records that `ast_config_load` was reached (line 108);
`parsedText` the parsed first argument; `effectiveRate` the target rate in
effect from line 157 on; `wavExt` the extension chosen for the output file
name (lines 192-200); `cacheSaved` whether `ast_filecopy` into the cache
ran (lines 279-282); `convResult` the outcome of the conversion block when
it was entered; `outputSamples` the frames written to the output WAV file;
`playbackAttempted` whether `ast_streamfile` was called; `retcode` the
value `app_exec` returns. -/
structure ExecTrace where
  configLoaded : Bool
  parsedText : Option String
  effectiveRate : Option Nat
  synthAttempted : Bool
  rawFileCreated : Bool
  wavExt : Option String
  cacheSaved : Bool
  convResult : Option ConvResult
  outputSamples : Option (List ℚ)
  playbackAttempted : Bool
  retcode : Int
deriving DecidableEq, Repr

/-- The early-exit trace of lines 103-106: empty argument string, nothing
else happens, return `-1`. -/
def emptyDataTrace : ExecTrace :=
  { configLoaded := false, parsedText := none, effectiveRate := none,
    synthAttempted := false, rawFileCreated := false, wavExt := none,
    cacheSaved := false, convResult := none, outputSamples := none,
    playbackAttempted := false, retcode := -1 }

/-- Lines 159-296 of `app_exec`, after argument parsing and rate
normalization: cache short-circuit, temp-file naming, synthesis,
conversion, optional cache write, playback.

`eff` is the normalized target rate, `usecache`/`cachedir` the
configuration-derived cache settings, `md5` stands for `ast_md5_hash`.

Branch correspondence: the first `if` is the cache-hit path that returns at
line 184 (`usecache` set, cache file name short enough, file exists, and
`ast_streamfile` succeeded — on a stream failure the code only logs and
falls through to synthesis); `writecache` is set at line 171 exactly when
caching is active and the file did not exist.  The `espeakRate` match is
the `sample_rate == -1` test of line 205, the `fopenOk` test is line 219,
and the final match dispatches on the conversion block's outcome
(`return -1` at lines 241 and 252, playback at lines 284-292 otherwise,
with `res` from `ast_streamfile` or, on its success, `ast_waitstream`). -/
def appExecCore (resample : List ℚ → ℚ → Nat → List ℚ) (md5 : String → String)
    (args : AppArgs) (usecache : Bool) (cachedir : String) (eff : Nat)
    (env : ExecEnv) : ExecTrace :=
  if usecache = true ∧ cacheNameOk md5 args cachedir ∧
      env.cacheExists = true ∧ env.cacheStreamRes = 0 then
    { configLoaded := true, parsedText := some args.text,
      effectiveRate := some eff, synthAttempted := false,
      rawFileCreated := false, wavExt := none, cacheSaved := false,
      convResult := none, outputSamples := none, playbackAttempted := true,
      retcode := env.cacheWaitRes }
  else
    let writecache := usecache = true ∧ cacheNameOk md5 args cachedir ∧
      env.cacheExists = false
    let ext := wavExtFor eff
    match env.espeakRate with
    | none =>
      { configLoaded := true, parsedText := some args.text,
        effectiveRate := some eff, synthAttempted := false,
        rawFileCreated := false, wavExt := some ext, cacheSaved := false,
        convResult := none, outputSamples := none,
        playbackAttempted := false, retcode := -1 }
    | some sr =>
      if env.fopenOk = false then
        { configLoaded := true, parsedText := some args.text,
          effectiveRate := some eff, synthAttempted := false,
          rawFileCreated := false, wavExt := some ext, cacheSaved := false,
          convResult := none, outputSamples := none,
          playbackAttempted := false, retcode := -1 }
      else
        match convert resample env.synthData sr eff env.conv with
        | ConvResult.errSrcOpen =>
          { configLoaded := true, parsedText := some args.text,
            effectiveRate := some eff, synthAttempted := true,
            rawFileCreated := true, wavExt := some ext, cacheSaved := false,
            convResult := some ConvResult.errSrcOpen, outputSamples := none,
            playbackAttempted := false, retcode := -1 }
        | ConvResult.errDstOpen =>
          { configLoaded := true, parsedText := some args.text,
            effectiveRate := some eff, synthAttempted := true,
            rawFileCreated := true, wavExt := some ext, cacheSaved := false,
            convResult := some ConvResult.errDstOpen, outputSamples := none,
            playbackAttempted := false, retcode := -1 }
        | ConvResult.ok info out =>
          { configLoaded := true, parsedText := some args.text,
            effectiveRate := some eff, synthAttempted := true,
            rawFileCreated := true, wavExt := some ext,
            cacheSaved := decide writecache,
            convResult := some (ConvResult.ok info out),
            outputSamples := some out, playbackAttempted := true,
            retcode := if env.streamRes ≠ 0 then env.streamRes else env.waitRes }

/-- Shallow embedding of `app_exec` (lines 69-297 of `app_espeak.c`):
the `ast_strlen_zero(data)` guard of lines 103-106, then configuration
defaults, argument parsing, rate normalization and the rest of the
pipeline via `appExecCore`. -/
def appExec (resample : List ℚ → ℚ → Nat → List ℚ) (md5 : String → String)
    (data : String) (cfg : EspeakConfig) (env : ExecEnv) : ExecTrace :=
  if data = "" then emptyDataTrace
  else
    appExecCore resample md5 (parseArgs data) (cfgUsecache cfg)
      (cfgCachedir cfg) (effRate cfg) env

/-! ### Concrete instances used by closed theorems and witnesses -/

/-- A concrete stand-in for the (deterministic, fixed) `src_simple`
resampler, used only to evaluate the embedding at concrete inputs in
closed theorems; the universally quantified theorems hold for every
resampler. -/
def resample0 : List ℚ → ℚ → Nat → List ℚ := fun _ _ n => List.replicate n 0

/-- A concrete stand-in for `ast_md5_hash` (32 hex characters). -/
def md5c : String → String := fun _ => "00000000000000000000000000000000"

/-- A concrete nonempty dialplan argument string. -/
def dataHi : String := "hi"

/-- The dialplan argument string of `eSpeak(,any)`: its text portion is
empty but the whole string is not. -/
def dataTextless : String := ",any"

/-- The empty dialplan argument string. -/
def dataEmpty : String := ""

/-- Conversion oracles where every external call succeeds and the source
file is read in full. -/
def cenvGood : ConvEnv :=
  { srcOpenOk := true, dstOpenOk := true, srcMallocOk := true,
    dstMallocOk := true, readCount := 1000000, srcJunk := fun _ => 0,
    dstJunk := fun _ => 0 }

/-- Conversion oracles where `sf_open` on the raw source file fails. -/
def cenvSrcFail : ConvEnv := { cenvGood with srcOpenOk := false }

/-- Conversion oracles where `sf_readf_float` delivers zero of the
requested frames and the uninitialized buffer holds the value 9. -/
def cenvShortRead : ConvEnv :=
  { cenvGood with readCount := 0, srcJunk := fun _ => 9 }

/-- Conversion oracles where both `malloc` calls fail. -/
def cenvAllocFail : ConvEnv :=
  { cenvGood with srcMallocOk := false, dstMallocOk := false }

/-- A loaded configuration requesting the unsupported rate 11025, cache
disabled. -/
def cfg11025 : EspeakConfig :=
  { loaded := true, usecache := false, cachedir := none,
    samplerate := some 11025, speed := none, wordgap := none,
    volume := none, pitch := none, capind := none, voice := none }

/-- The absent-configuration case (`ast_config_load` returned NULL). -/
def cfgAbsent : EspeakConfig :=
  { loaded := false, usecache := false, cachedir := none,
    samplerate := none, speed := none, wordgap := none, volume := none,
    pitch := none, capind := none, voice := none }

/-- Application oracles where everything succeeds: eSpeak initializes at
its native 22050 Hz, synthesizes three frames, and playback succeeds. -/
def envGood : ExecEnv :=
  { randVal := 0, espeakRate := some 22050, fopenOk := true,
    synthData := [0, 0, 0], conv := cenvGood, cacheExists := false,
    cacheStreamRes := 0, cacheWaitRes := 0, streamRes := 0, waitRes := 0 }

/-- The destination `SF_INFO` produced when one output frame is written at
8000 Hz; used by closed theorems below. -/
def infoA : SF_INFO :=
  { frames := 1, samplerate := 8000, channels := 1, format := WAV_PCM_S16LE }

/-! ### Helper lemmas -/

theorem normalizeRate_eq (t : Int) :
    normalizeRate t = 8000 ∨ normalizeRate t = 16000 := by
  unfold normalizeRate
  split_ifs with h
  · exact Or.inl rfl
  · push_neg at h
    by_cases h8 : t = 8000
    · exact Or.inl h8
    · exact Or.inr (h h8)

theorem effRate_mem (cfg : EspeakConfig) :
    effRate cfg = 8000 ∨ effRate cfg = 16000 := by
  unfold effRate
  rcases normalizeRate_eq (targetRate0 cfg) with h | h <;> rw [h]
  · exact Or.inl rfl
  · exact Or.inr rfl

theorem effRate_of_unsupported (cfg : EspeakConfig)
    (h8 : targetRate0 cfg ≠ 8000) (h16 : targetRate0 cfg ≠ 16000) :
    effRate cfg = 8000 := by
  unfold effRate normalizeRate
  rw [if_pos ⟨h8, h16⟩]
  rfl

theorem convert_ok_info {resample : List ℚ → ℚ → Nat → List ℚ}
    {rawData : List ℚ} {sampleRate targetRate : Nat} {env : ConvEnv}
    {info : SF_INFO} {out : List ℚ}
    (h : convert resample rawData sampleRate targetRate env = ConvResult.ok info out) :
    info = { frames := rawData.length * targetRate / sampleRate,
             samplerate := targetRate, channels := 1,
             format := WAV_PCM_S16LE } := by
  unfold convert at h
  split_ifs at h
  all_goals simp only [ConvResult.ok.injEq] at h
  all_goals exact h.1.symm

theorem appExecCore_cases (resample : List ℚ → ℚ → Nat → List ℚ)
    (md5 : String → String) (args : AppArgs) (usecache : Bool)
    (cachedir : String) (eff : Nat) (env : ExecEnv) :
    (appExecCore resample md5 args usecache cachedir eff env).convResult = none ∨
    ∃ sr, env.espeakRate = some sr ∧
      (appExecCore resample md5 args usecache cachedir eff env).convResult =
        some (convert resample env.synthData sr eff env.conv) ∧
      (appExecCore resample md5 args usecache cachedir eff env).effectiveRate = some eff ∧
      (appExecCore resample md5 args usecache cachedir eff env).wavExt =
        some (wavExtFor eff) := by
  by_cases hcache : usecache = true ∧ cacheNameOk md5 args cachedir ∧
      env.cacheExists = true ∧ env.cacheStreamRes = 0
  · exact Or.inl (by simp [appExecCore, hcache])
  · cases hsr : env.espeakRate with
    | none => exact Or.inl (by simp [appExecCore, hcache, hsr])
    | some sr =>
      by_cases hf : env.fopenOk = false
      · exact Or.inl (by simp [appExecCore, hcache, hsr, hf])
      · refine Or.inr ⟨sr, rfl, ?_⟩
        cases hcv : convert resample env.synthData sr eff env.conv <;>
          simp [appExecCore, hcache, hsr, hf, hcv]

/-! ### Claim theorems -/

/-- C1 counterexample: with the unsupported configured rate 11025 the
application does not fail and does not withhold a result — it synthesizes,
converts and returns success, contradicting the claim that the operation
fails with `UnsupportedRateError` and produces no result. -/
theorem unsupported_rate_run_produces_result :
    cfg11025.samplerate = some 11025 ∧
    (appExec resample0 md5c dataHi cfg11025 envGood).synthAttempted = true ∧
    (appExec resample0 md5c dataHi cfg11025 envGood).convResult.isSome = true ∧
    (appExec resample0 md5c dataHi cfg11025 envGood).outputSamples = some [0] ∧
    (appExec resample0 md5c dataHi cfg11025 envGood).retcode = 0 := by decide

/-- C1 amended: a configured target rate outside {8000, 16000} does not
fail the call; it is replaced by 8000 (lines 152-157) and the run proceeds
exactly as if 8000 had been configured. -/
theorem unsupported_rate_falls_back_to_8000
    (resample : List ℚ → ℚ → Nat → List ℚ) (md5 : String → String)
    (data : String) (cfg : EspeakConfig) (env : ExecEnv) (r : Int)
    (hr : cfg.samplerate = some r) (h8 : r ≠ 8000) (h16 : r ≠ 16000) :
    appExec resample md5 data cfg env =
      appExec resample md5 data { cfg with samplerate := some 8000 } env := by
  obtain ⟨l, u, cd, srr, sp, wg, vo, pi, ca, vc⟩ := cfg
  simp only at hr
  subst hr
  have he : effRate ⟨l, u, cd, some r, sp, wg, vo, pi, ca, vc⟩ =
      effRate ⟨l, u, cd, some 8000, sp, wg, vo, pi, ca, vc⟩ := by
    cases l <;> simp [effRate, targetRate0, normalizeRate, h8, h16]
  unfold appExec
  rw [he]
  rfl

/-- C1 witness: the fallback theorem applied at the concrete rate 11025. -/
theorem unsupported_rate_falls_back_to_8000_witness :
    appExec resample0 md5c dataHi cfg11025 envGood =
      appExec resample0 md5c dataHi { cfg11025 with samplerate := some 8000 } envGood :=
  unsupported_rate_falls_back_to_8000 resample0 md5c dataHi cfg11025 envGood 11025 rfl
    (by decide) (by decide)

/-- C2 counterexample: for 3 frames at 16000 Hz converted to 8000 Hz the
code produces a frame count of 1 (truncated integer division, line 256)
while `round(3 * 8000 / 16000) = round(1.5) = 2`. -/
theorem frame_count_not_round_at_three_frames :
    convert resample0 [0, 0, 0] 16000 8000 cenvGood =
      ConvResult.ok
        { frames := 1, samplerate := 8000, channels := 1,
          format := WAV_PCM_S16LE } [0] ∧
    round ((3 : ℚ) * 8000 / 16000) = 2 ∧ (1 : ℤ) ≠ 2 :=
  ⟨by decide, by norm_num [round_eq], by decide⟩

/-- C2 amended: on every successful conversion the output frame count is
the FLOOR (truncated integer division, line 256) of
`source.frame_count * target_rate / source.sample_rate`, not its rounding. -/
theorem convert_frame_count_floor
    (resample : List ℚ → ℚ → Nat → List ℚ) (rawData : List ℚ)
    (sampleRate targetRate : Nat) (env : ConvEnv) (info : SF_INFO)
    (out : List ℚ)
    (h : convert resample rawData sampleRate targetRate env = ConvResult.ok info out) :
    info.frames = ⌊((rawData.length : ℚ) * targetRate / sampleRate)⌋₊ := by
  rw [convert_ok_info h]
  show rawData.length * targetRate / sampleRate =
    ⌊((rawData.length : ℚ) * targetRate / sampleRate)⌋₊
  rw [← Nat.cast_mul, Nat.floor_div_nat, Nat.floor_natCast]

/-- C2 witness: the floor law evaluated at 3 frames, 16000 → 8000. -/
theorem convert_frame_count_floor_witness :
    (1 : ℕ) = ⌊((3 : ℚ) * 8000 / 16000)⌋₊ := by
  have h := convert_frame_count_floor resample0 [0, 0, 0] 16000 8000 cenvGood
    { frames := 1, samplerate := 8000, channels := 1,
      format := WAV_PCM_S16LE } [0] (by decide)
  simpa using h

/-- C3: passthrough identity — when the source sample rate equals the
target rate, and the source buffer is materialized in full, the conversion
(lines 259-269, `memcpy` branch) returns the source buffer bit-identically
with an unchanged frame count. -/
theorem convert_passthrough_identity
    (resample : List ℚ → ℚ → Nat → List ℚ) (b : List ℚ) (r : Nat)
    (env : ConvEnv) (hr : 0 < r) (hso : env.srcOpenOk = true)
    (hdo : env.dstOpenOk = true) (hread : b.length ≤ env.readCount) :
    convert resample b r r env =
      ConvResult.ok
        { frames := b.length, samplerate := r, channels := 1,
          format := WAV_PCM_S16LE } b := by
  have hmin : min env.readCount b.length = b.length := min_eq_right hread
  have hdiv : b.length * r / r = b.length := Nat.mul_div_left b.length hr
  simp [convert, hso, hdo, hmin, hdiv, uninitFloats]

/-- C3 witness: passthrough at 8000 Hz on a two-sample buffer. -/
theorem convert_passthrough_identity_witness :
    convert resample0 [1 / 2, -1 / 3] 8000 8000 cenvGood =
      ConvResult.ok
        { frames := 2, samplerate := 8000, channels := 1,
          format := WAV_PCM_S16LE } [1 / 2, -1 / 3] := by
  have h := convert_passthrough_identity resample0 [1 / 2, -1 / 3] 8000 cenvGood
    (by decide) rfl rfl (by decide)
  simpa using h

/-- C4: the code does NOT detect allocation failure.  The two `malloc`
results (lines 254 and 257) are never checked: with both allocation
oracles reporting failure, the conversion block still runs to an `ok`
result instead of failing with an allocation error (in the C original this
is a NULL-pointer dereference).  The claim describes the intended
behavior; the code is missing the check. -/
theorem alloc_failure_unchecked_run_proceeds :
    cenvAllocFail.srcMallocOk = false ∧ cenvAllocFail.dstMallocOk = false ∧
    convert resample0 [0, 0] 16000 8000 cenvAllocFail =
      ConvResult.ok
        { frames := 1, samplerate := 8000, channels := 1,
          format := WAV_PCM_S16LE } [0] := by decide

/-- C5 counterexample: a short read is not detected.  With
`sf_readf_float` delivering 0 of the 2 requested frames (its return value
is unchecked at line 255), the conversion proceeds over the uninitialized
buffer contents (here the junk value 9) and returns an `ok` result instead
of failing with `IOError`. -/
theorem short_read_produces_output :
    cenvShortRead.readCount = 0 ∧
    convert resample0 [1 / 2, 1 / 3] 16000 16000 cenvShortRead =
      ConvResult.ok
        { frames := 2, samplerate := 16000, channels := 1,
          format := WAV_PCM_S16LE } [9, 9] := by decide

/-- C5 amended: only a source that cannot be OPENED makes the conversion
fail immediately with the I/O error exit (lines 236-242), with no output
produced; a partial read after a successful open is not detected. -/
theorem src_open_failure_immediate_io_error
    (resample : List ℚ → ℚ → Nat → List ℚ) (rawData : List ℚ)
    (sampleRate targetRate : Nat) (env : ConvEnv)
    (h : env.srcOpenOk = false) :
    convert resample rawData sampleRate targetRate env = ConvResult.errSrcOpen := by
  unfold convert
  rw [if_pos h]

/-- C5 witness: the open-failure exit at a concrete input. -/
theorem src_open_failure_immediate_io_error_witness :
    convert resample0 [0] 16000 8000 cenvSrcFail = ConvResult.errSrcOpen :=
  src_open_failure_immediate_io_error resample0 [0] 16000 8000 cenvSrcFail rfl

/-- C7: determinism — the conversion pipeline is a pure function of its
inputs and oracles.  The one stochastic input of `app_exec`,
`ast_random()` at line 191, only enters the temporary file name: two runs
with identical input buffers, configuration and external-call outcomes but
different random values produce the identical observable trace, in
particular identical output sample sequences. -/
theorem output_independent_of_randomness
    (resample : List ℚ → ℚ → Nat → List ℚ) (md5 : String → String)
    (data : String) (cfg : EspeakConfig) (env : ExecEnv) (n : Nat) :
    appExec resample md5 data cfg { env with randVal := n } =
      appExec resample md5 data cfg env := rfl

/-- C8: every successful conversion is tagged with exactly the requested
target rate, one channel, and PCM16 WAV encoding (lines 243-245). -/
theorem convert_ok_container_tags
    (resample : List ℚ → ℚ → Nat → List ℚ) (rawData : List ℚ)
    (sampleRate targetRate : Nat) (env : ConvEnv) (info : SF_INFO)
    (out : List ℚ)
    (h : convert resample rawData sampleRate targetRate env = ConvResult.ok info out) :
    info.samplerate = targetRate ∧ info.channels = 1 ∧
    info.format = WAV_PCM_S16LE := by
  rw [convert_ok_info h]
  exact ⟨rfl, rfl, rfl⟩

/-- C8 witness: the tagging law at a concrete successful conversion. -/
theorem convert_ok_container_tags_witness :
    infoA.samplerate = 8000 ∧ infoA.channels = 1 ∧
    infoA.format = WAV_PCM_S16LE :=
  convert_ok_container_tags resample0 [0, 0, 0] 16000 8000 cenvGood
    infoA [0] (by decide)

/-- C9 counterexample: the guard of lines 103-106 tests the WHOLE argument
string, not the text portion.  For the invocation `eSpeak(,any)` the text
argument is empty, yet synthesis runs, the temporary raw file is created,
and playback happens. -/
theorem empty_text_with_args_not_rejected :
    (appExec resample0 md5c dataTextless cfgAbsent envGood).parsedText = some dataEmpty ∧
    (appExec resample0 md5c dataTextless cfgAbsent envGood).synthAttempted = true ∧
    (appExec resample0 md5c dataTextless cfgAbsent envGood).rawFileCreated = true ∧
    (appExec resample0 md5c dataTextless cfgAbsent envGood).playbackAttempted = true ∧
    (appExec resample0 md5c dataTextless cfgAbsent envGood).retcode = 0 := by decide

/-- C9 amended: an invocation whose entire argument string is empty fails
immediately with `-1`, before the configuration is loaded and without any
synthesis, temporary file, or playback; an empty text portion accompanied
by further arguments is not rejected. -/
theorem empty_data_fails_immediately
    (resample : List ℚ → ℚ → Nat → List ℚ) (md5 : String → String)
    (data : String) (cfg : EspeakConfig) (env : ExecEnv) (h : data = "") :
    (appExec resample md5 data cfg env).retcode = -1 ∧
    (appExec resample md5 data cfg env).configLoaded = false ∧
    (appExec resample md5 data cfg env).synthAttempted = false ∧
    (appExec resample md5 data cfg env).rawFileCreated = false ∧
    (appExec resample md5 data cfg env).playbackAttempted = false ∧
    (appExec resample md5 data cfg env).outputSamples = none := by
  subst h
  simp [appExec, emptyDataTrace]

/-- C9 witness: the empty-argument exit at a concrete environment. -/
theorem empty_data_fails_immediately_witness :
    (appExec resample0 md5c dataEmpty cfgAbsent envGood).retcode = -1 ∧
    (appExec resample0 md5c dataEmpty cfgAbsent envGood).configLoaded = false ∧
    (appExec resample0 md5c dataEmpty cfgAbsent envGood).synthAttempted = false ∧
    (appExec resample0 md5c dataEmpty cfgAbsent envGood).rawFileCreated = false ∧
    (appExec resample0 md5c dataEmpty cfgAbsent envGood).playbackAttempted = false ∧
    (appExec resample0 md5c dataEmpty cfgAbsent envGood).outputSamples = none :=
  empty_data_fails_immediately resample0 md5c dataEmpty cfgAbsent envGood rfl

/-- C10: every execution that reaches the conversion step does so with the
normalized target rate: it is a member of {8000, 16000}, an unsupported
configured value has already been replaced by 8000, the output file name
extension is chosen from that rate, and the output container is tagged
with exactly that rate. -/
theorem conversion_reached_implies_supported_rate
    (resample : List ℚ → ℚ → Nat → List ℚ) (md5 : String → String)
    (data : String) (cfg : EspeakConfig) (env : ExecEnv) (cr : ConvResult)
    (h : (appExec resample md5 data cfg env).convResult = some cr) :
    (appExec resample md5 data cfg env).effectiveRate = some (effRate cfg) ∧
    (effRate cfg = 8000 ∨ effRate cfg = 16000) ∧
    (targetRate0 cfg ≠ 8000 → targetRate0 cfg ≠ 16000 → effRate cfg = 8000) ∧
    (appExec resample md5 data cfg env).wavExt = some (wavExtFor (effRate cfg)) ∧
    ∀ info out, cr = ConvResult.ok info out → info.samplerate = effRate cfg := by
  by_cases hd : data = ""
  · rw [appExec, if_pos hd] at h
    simp [emptyDataTrace] at h
  · rw [appExec, if_neg hd] at h ⊢
    rcases appExecCore_cases resample md5 (parseArgs data) (cfgUsecache cfg)
        (cfgCachedir cfg) (effRate cfg) env with hnone | ⟨sr, hsr, hconv, heff, hext⟩
    · rw [hnone] at h
      exact Option.noConfusion h
    · rw [hconv] at h
      injection h with hcr
      refine ⟨heff, effRate_mem cfg, effRate_of_unsupported cfg, hext, ?_⟩
      intro info out hok
      rw [convert_ok_info (hcr.trans hok)]

/-- C10 witness: the invariant at the concrete 11025-configured run. -/
theorem conversion_reached_implies_supported_rate_witness :
    (appExec resample0 md5c dataHi cfg11025 envGood).effectiveRate =
      some (effRate cfg11025) ∧
    (effRate cfg11025 = 8000 ∨ effRate cfg11025 = 16000) ∧
    (targetRate0 cfg11025 ≠ 8000 → targetRate0 cfg11025 ≠ 16000 →
      effRate cfg11025 = 8000) ∧
    (appExec resample0 md5c dataHi cfg11025 envGood).wavExt =
      some (wavExtFor (effRate cfg11025)) ∧
    ∀ info out,
      ConvResult.ok
        { frames := 1, samplerate := 8000, channels := 1,
          format := WAV_PCM_S16LE } [0] = ConvResult.ok info out →
      info.samplerate = effRate cfg11025 :=
  conversion_reached_implies_supported_rate resample0 md5c dataHi cfg11025 envGood
    (ConvResult.ok
      { frames := 1, samplerate := 8000, channels := 1,
        format := WAV_PCM_S16LE } [0]) (by decide)

end AppEspeak
